import Mathlib

/-
Verification of the rentEst investment pro-forma engine (src/new/test.py) against its
specification.  The Python pipeline is shallowly embedded over the rationals:
every CSV numeric cell is modelled as a rational number, cells whose emptiness or
presence matters (Python truthiness checks, float-parse exceptions) are modelled as
Option values, and the Python round(x, 2) used when rows are written out is
modelled by pyRound2 (round-half-to-even at two decimals).  Text cells are Lean
strings and the keyword scan is an executable substring search.  Non-rational
operations of the source (the fifth-root in the IRR formula and math.pow in the
five-year CAGR) are passed in as an explicit function argument, mirroring that the
guarded code never applies them when the corresponding guard fails.
-/

set_option autoImplicit false

/-- Python round(x, 2): round half to even at two decimal places, over the rationals. -/
def pyRound2 (q : ℚ) : ℚ :=
  let s := q * 100
  let f : ℤ := Int.floor s
  let frac := s - f
  let n : ℤ :=
    if frac < 1/2 then f
    else if 1/2 < frac then f + 1
    else if f % 2 = 0 then f else f + 1
  (n : ℚ) / 100

/-- NEIGHBORHOOD_QUALITY lookup (src/new/test.py:24-32, get_neighborhood_factor at 339-344).
Zip codes reach the table as str(int(float(zip))), so integer keys are a faithful model. -/
def get_neighborhood_factor (zip_code : ℤ) : ℚ :=
  if zip_code = 10001 then 9/10
  else if zip_code = 10011 then 95/100
  else if zip_code = 10014 then 95/100
  else if zip_code = 10016 then 9/10
  else if zip_code = 10017 then 9/10
  else if zip_code = 10018 then 9/10
  else if zip_code = 10019 then 92/100
  else if zip_code = 10021 then 95/100
  else if zip_code = 10022 then 95/100
  else if zip_code = 10023 then 95/100
  else if zip_code = 10024 then 95/100
  else if zip_code = 10025 then 9/10
  else if zip_code = 10028 then 95/100
  else if zip_code = 10075 then 95/100
  else if zip_code = 11201 then 9/10
  else if zip_code = 11215 then 88/100
  else if zip_code = 11217 then 88/100
  else if zip_code = 11231 then 85/100
  else if zip_code = 11238 then 85/100
  else 3/4

/-- PROPERTY_TYPE_MODIFIERS for rent (src/new/test.py:37-45); unknown styles get 1.0,
and the synthetic style "default" hits the explicit default entry, also 1.0. -/
def rent_modifier (style : String) : ℚ :=
  if style = "Condo" then 115/100
  else if style = "Co-op" then 95/100
  else if style = "Single Family" then 105/100
  else if style = "Multi Family" then 9/10
  else if style = "Townhouse" then 11/10
  else if style = "Luxury" then 125/100
  else 1

/-- PROPERTY_TYPE_MODIFIERS for growth (src/new/test.py:47-54). -/
def growth_modifier (style : String) : ℚ :=
  if style = "Condo" then 105/100
  else if style = "Co-op" then 95/100
  else if style = "Single Family" then 102/100
  else if style = "Multi Family" then 108/100
  else if style = "Townhouse" then 104/100
  else 1

/-- One listing row of the property CSV as the engine reads it.  Numeric cells read
with the float(x or 0) pattern are plain rationals (empty cell = 0); cells whose raw
presence is tested for truthiness, or whose empty string makes float() raise inside a
try block, are Option values (none = empty cell). -/
structure PropertyRow where
  list_price : ℚ
  zip_code : ℤ
  state : String
  beds : ℚ
  full_baths : ℚ
  half_baths : ℚ
  sqft : ℚ
  year_built : ℚ
  style : String
  text : String
  parking_garage : Option ℚ
  hoa_fee : Option ℚ
  tax : ℚ
  price_per_sqft : ℚ
  PTR : ℚ
  zori_monthly_rent : Option ℚ
  zori_annual_rent : Option ℚ
  zori_growth_rate : Option ℚ

/-- calculate_bed_bath_factor (src/new/test.py:208-256).  The beds/baths arguments are
already parsed with float(x or 0), so the Python None branches are unreachable and the
value branches are embedded directly. -/
def calculate_bed_bath_factor (beds baths : ℚ) : ℚ :=
  let bed_value : ℚ :=
    if beds = 0 then 85/100
    else if beds = 1 then 1
    else if beds = 2 then 12/10
    else if beds = 3 then 135/100
    else if 4 ≤ beds then 145/100
    else 1
  let bath_value : ℚ :=
    if baths < 1 then 9/10
    else if baths = 1 then 1
    else if baths = 3/2 then 105/100
    else if baths = 2 then 11/10
    else if baths ≤ 3 then 12/10
    else 125/100
  if beds ≠ 0 ∧ baths ≠ 0 ∧ 0 < beds ∧ 3/2 ≤ baths / beds then
    (bed_value + bath_value) / 2 * (105/100)
  else
    (bed_value + bath_value) / 2

/-- calculate_size_factor (src/new/test.py:258-280). -/
def calculate_size_factor (sqft : ℚ) : ℚ :=
  if sqft = 0 ∨ sqft ≤ 0 then 1
  else if sqft < 500 then 85/100
  else if sqft < 750 then 95/100
  else if sqft < 1000 then 1
  else if sqft < 1500 then 11/10
  else if sqft < 2000 then 12/10
  else if sqft < 3000 then 13/10
  else 14/10

/-- calculate_condition_factor (src/new/test.py:282-304); datetime.now().year is passed
in explicitly as current_year. -/
def calculate_condition_factor (current_year year_built : ℚ) : ℚ :=
  if year_built = 0 ∨ year_built ≤ 0 then 1
  else
    let age := current_year - year_built
    if age < 3 then 115/100
    else if age < 10 then 11/10
    else if age < 20 then 105/100
    else if age < 40 then 1
    else if age < 75 then 95/100
    else 9/10

/-- The fixed luxury keyword list (src/new/test.py:315-317). -/
def luxury_keywords : List String :=
  ["doorman", "concierge", "luxury", "high-end", "renovated",
   "marble", "stainless", "premium", "upscale", "views", "pool",
   "gym", "fitness", "modern", "updated", "granite", "new appliances"]

/-- Does the first character list start with the second list as an initial segment. -/
def charsStartWith : List Char → List Char → Bool
  | [], _ => true
  | _ :: _, [] => false
  | a :: as, b :: bs => a == b && charsStartWith as bs

/-- Substring containment on character lists, modelling the Python in operator. -/
def charsContain (needle : List Char) : List Char → Bool
  | [] => needle.isEmpty
  | b :: bs => charsStartWith needle (b :: bs) || charsContain needle bs

/-- keyword in description, for strings. -/
def strContains (haystack needle : String) : Bool :=
  charsContain needle.toList haystack.toList

/-- str.lower(), character by character. -/
def lowerString (s : String) : String :=
  String.mk (s.toList.map Char.toLower)

/-- Drop leading whitespace characters. -/
def dropLeadingSpaces : List Char → List Char
  | [] => []
  | c :: cs => if c.isWhitespace then dropLeadingSpaces cs else c :: cs

/-- str.strip(): remove whitespace from both ends. -/
def stripString (s : String) : String :=
  String.mk (((dropLeadingSpaces s.toList).reverse |> dropLeadingSpaces).reverse)

/-- Number of luxury keywords appearing in the (lowercased) description, modelling
sum(1 for keyword in luxury_keywords if keyword in description). -/
def keyword_count (description : String) : ℕ :=
  (luxury_keywords.filter (fun k => strContains description k)).length

/-- calculate_amenity_score (src/new/test.py:306-337).  Note the source checks
hoa_fee > 500 first and hoa_fee > 1000 only in an elif, which is preserved here. -/
def calculate_amenity_score (row : PropertyRow) : ℚ :=
  let description := lowerString row.text
  let score : ℚ := 1 + min (2/10) ((1/100) * (keyword_count description : ℚ))
  let score :=
    match row.parking_garage with
    | some p => if 0 < p then score + 5/100 else score
    | none => score
  let hoa_fee := row.hoa_fee.getD 0
  if 500 < hoa_fee then score + 5/100
  else if 1000 < hoa_fee then score + 1/10
  else score

/-- calculate_down_payment_pct (src/new/test.py:346-368). -/
def calculate_down_payment_pct (list_price neighborhood_factor : ℚ) : ℚ :=
  let down_payment_pct : ℚ :=
    if list_price < 200000 then 35/100
    else if list_price < 500000 then 40/100
    else if list_price < 750000 then 45/100
    else if list_price < 1000000 then 50/100
    else 55/100
  let down_payment_pct := down_payment_pct - (neighborhood_factor - 3/4) * (5/100)
  min (60/100) (max (30/100) down_payment_pct)

/-- determine_mortgage_terms (src/new/test.py:370-402); returns (interest rate in
percent, loan term in years). -/
def determine_mortgage_terms (list_price neighborhood_factor : ℚ) : ℚ × ℕ :=
  let interest_rate : ℚ :=
    if list_price < 250000 then 8
    else if list_price < 500000 then 775/100
    else if list_price < 750000 then 75/10
    else if list_price < 1000000 then 725/100
    else 7
  let interest_rate := interest_rate - (neighborhood_factor - 3/4) * 1
  let interest_rate := min 9 (max 6 interest_rate)
  let loan_term : ℕ :=
    if list_price < 500000 then 15
    else if list_price < 750000 then 20
    else 25
  (interest_rate, loan_term)

/-- calculate_growth_rate (src/new/test.py:404-426).  The growth_rates_by_zip dict is
modelled as a partial map from zip to the stored five_year_cagr (the one_year entry is
unused by this function); a missing zip yields the default 3.0.  Returns a decimal. -/
def calculate_growth_rate (zip_code : ℤ) (neighborhood_factor : ℚ) (property_style : String)
    (growth_rates_by_zip : ℤ → Option ℚ) : ℚ :=
  let five_year_cagr := (growth_rates_by_zip zip_code).getD 3
  let property_type_modifier := growth_modifier property_style
  let base_growth_rate := min 6 (max 2 five_year_cagr)
  let neighborhood_adjustment := neighborhood_factor * (2/100)
  let property_adjustment := (property_type_modifier - 1) * (1/100)
  let growth_rate :=
    min 10 (max 2 (base_growth_rate + neighborhood_adjustment * 100 + property_adjustment * 100))
  growth_rate / 100

/-- calculate_exit_cap_rate (src/new/test.py:428-448). -/
def calculate_exit_cap_rate (entry_cap_rate growth_rate neighborhood_factor : ℚ) : ℚ :=
  let entry := if 1 < entry_cap_rate then entry_cap_rate / 100 else entry_cap_rate
  let base_expansion : ℚ := 1/100
  let neighborhood_adjustment := (neighborhood_factor - 3/4) * (15/1000)
  let growth_adjustment := (growth_rate - 3/100) * (1/2)
  let cap_rate_expansion := max 0 (base_expansion - neighborhood_adjustment - growth_adjustment)
  min (1/10) (max (1/25) (entry + cap_rate_expansion))

/-- Modelled from the words of the specification, for comparison with the code (claim
C4): exit cap rate claimed as min(0.10, max(0.04, entry decimal + max(0, 0.01 -
(neighborhood_factor - 0.75) * 0.015 - (growth_rate - 0.03) * 0.5))). -/
def claimedExitCapRate (entry_cap_rate_decimal growth_rate neighborhood_factor : ℚ) : ℚ :=
  min (1/10) (max (1/25)
    (entry_cap_rate_decimal +
      max 0 (1/100 - (neighborhood_factor - 3/4) * (15/1000) - (growth_rate - 3/100) * (1/2))))

/-- The adjusted-rent computation inside estimate_rental_income (src/new/test.py:478-517),
after the zip code has been resolved to a base ZORI rent.  seasonality_pct is
avg_seasonality.get(current_month, 0); current_year feeds the condition factor. -/
def estimate_adjusted_rent (row : PropertyRow) (base_zori_rent : ℚ)
    (seasonality_pct : ℚ) (current_year : ℚ) : ℚ :=
  let beds := row.beds
  let baths := row.full_baths + (1/2) * row.half_baths
  let property_style := if stripString row.style = "" then "default" else stripString row.style
  let bed_bath_factor := calculate_bed_bath_factor beds baths
  let size_factor := calculate_size_factor row.sqft
  let condition_factor := calculate_condition_factor current_year row.year_built
  let amenity_factor := calculate_amenity_score row
  let property_type_factor := rent_modifier property_style
  let seasonality_factor := 1 + seasonality_pct / 100
  if property_style = "Multi Family" ∧ 4 ≤ beds then
    let units : ℚ := max 2 ((Int.floor (beds / 2) : ℤ) : ℚ)
    base_zori_rent * units * (85/100)
  else
    let adjustment_factor :=
      (bed_bath_factor * (35/100) + size_factor * (25/100) + condition_factor * (15/100) +
        amenity_factor * (15/100) + property_type_factor * (10/100)) * seasonality_factor
    base_zori_rent * adjustment_factor

/-- The rent compounding loop of calculate_cash_flow_metrics (src/new/test.py:629-633):
index 0 is the un-grown first-year annual rent, each later index multiplies by
(1 + growth_rate). -/
def rent_path (annual_rent growth_rate : ℚ) : ℕ → ℚ
  | 0 => annual_rent
  | y + 1 => rent_path annual_rent growth_rate y * (1 + growth_rate)

/-- The metrics dict produced by calculate_cash_flow_metrics when it succeeds.  The
year-indexed families are functions on the year number 1..5. -/
structure CashFlowOut where
  monthly_rent : ℚ
  annual_rent : ℚ
  tax_used : ℚ
  hoa_fee_used : ℚ
  down_payment_pct : ℚ
  interest_rate : ℚ
  loan_term : ℕ
  transaction_cost : ℚ
  cash_equity : ℚ
  noi_year : ℕ → ℚ
  cap_rate : ℚ
  ucf_year : ℕ → ℚ
  ucf : ℚ
  cash_yield : ℚ

/-- Common tail of calculate_cash_flow_metrics (src/new/test.py:594-647), from the
point where monthly rent, annual rent and the growth rate (decimal) are fixed. -/
def cash_flow_core (row : PropertyRow) (monthly_rent annual_rent growth_rate : ℚ) :
    CashFlowOut :=
  let list_price := row.list_price
  let neighborhood_factor := get_neighborhood_factor row.zip_code
  let tax0 := row.tax
  let tax := if tax0 = 0 then (1/100) * list_price else tax0
  let hoa0 := row.hoa_fee.getD 0
  let hoa_fee := if hoa0 = 0 then ((15/10000) * list_price) / 12 else hoa0
  let down_payment_pct := calculate_down_payment_pct list_price neighborhood_factor
  let mt := determine_mortgage_terms list_price neighborhood_factor
  let transaction_cost := (1/100) * list_price
  let cash_equity := down_payment_pct * (list_price + transaction_cost)
  let noi_year : ℕ → ℚ := fun y => rent_path annual_rent growth_rate (y - 1) - hoa_fee * 12
  let cap_rate := if 0 < list_price then noi_year 1 / list_price * 100 else 0
  let ucf_year : ℕ → ℚ := fun y => noi_year y - tax
  let cash_yield := if 0 < cash_equity then ucf_year 1 / cash_equity * 100 else 0
  { monthly_rent, annual_rent, tax_used := tax, hoa_fee_used := hoa_fee,
    down_payment_pct, interest_rate := mt.1, loan_term := mt.2,
    transaction_cost, cash_equity, noi_year, cap_rate, ucf_year,
    ucf := ucf_year 1, cash_yield }

/-- calculate_cash_flow_metrics (src/new/test.py:551-651) with is_zori_based true.
none models the function returning the empty metrics dict: list_price ≤ 0, a PTR
fallback with no positive PTR, or a float() ValueError on an empty zori cell caught
by the enclosing except before any metric is stored. -/
def calculate_cash_flow_metrics (row : PropertyRow) : Option CashFlowOut :=
  if row.list_price ≤ 0 then none
  else
    match row.zori_monthly_rent with
    | some zmr =>
      match row.zori_annual_rent, row.zori_growth_rate with
      | some zar, some zgr => some (cash_flow_core row zmr zar (zgr / 100))
      | _, _ => none
    | none =>
      if row.PTR ≤ 0 then none
      else
        let sqft := row.sqft
        let price_per_sqft := row.price_per_sqft
        let bre := if 0 < sqft ∧ 0 < price_per_sqft then sqft * price_per_sqft
                   else row.list_price
        let af := 1 + (5/100 + (2/100) * row.beds + (1/100) * row.full_baths +
                       (if 2000 < sqft then 5/100 else 0))
        let monthly_rent := row.PTR * bre * af
        some (cash_flow_core row monthly_rent (monthly_rent * 12) (3/100))

/-- The metrics dict as rebuilt by process_final_metrics (src/new/test.py:932-958)
from the intermediate CSV: every listed field is present, empty or unparseable cells
become 0, and numeric cells carry the round(value, 2) applied when the previous stage
wrote them out. -/
structure ExtractedMetrics where
  monthly_rent : ℚ
  annual_rent : ℚ
  tax_used : ℚ
  hoa_fee_used : ℚ
  down_payment_pct : ℚ
  interest_rate : ℚ
  loan_term : ℕ
  transaction_cost : ℚ
  cash_equity : ℚ
  cap_rate : ℚ
  ucf : ℚ
  cash_yield : ℚ
  noi_year : ℕ → ℚ
  ucf_year : ℕ → ℚ

/-- Field extraction in process_final_metrics: a row whose cash-flow stage produced the
empty dict has every metric cell empty, hence every extracted value 0. -/
def extract_metrics (cf : Option CashFlowOut) : ExtractedMetrics :=
  match cf with
  | none =>
      { monthly_rent := 0, annual_rent := 0, tax_used := 0, hoa_fee_used := 0,
        down_payment_pct := 0, interest_rate := 0, loan_term := 0, transaction_cost := 0,
        cash_equity := 0, cap_rate := 0, ucf := 0, cash_yield := 0,
        noi_year := fun _ => 0, ucf_year := fun _ => 0 }
  | some m =>
      { monthly_rent := pyRound2 m.monthly_rent, annual_rent := pyRound2 m.annual_rent,
        tax_used := pyRound2 m.tax_used, hoa_fee_used := pyRound2 m.hoa_fee_used,
        down_payment_pct := pyRound2 m.down_payment_pct,
        interest_rate := pyRound2 m.interest_rate, loan_term := m.loan_term,
        transaction_cost := pyRound2 m.transaction_cost,
        cash_equity := pyRound2 m.cash_equity, cap_rate := pyRound2 m.cap_rate,
        ucf := pyRound2 m.ucf, cash_yield := pyRound2 m.cash_yield,
        noi_year := fun y => pyRound2 (m.noi_year y),
        ucf_year := fun y => pyRound2 (m.ucf_year y) }

/-- numpy_financial pmt with fv = 0 and payments at period end:
pmt(rate, nper, pv) = -pv * rate * (1+rate)^nper / ((1+rate)^nper - 1). -/
def npfPmt (rate : ℚ) (nper : ℕ) (pv : ℚ) : ℚ :=
  -pv * rate * (1 + rate) ^ nper / ((1 + rate) ^ nper - 1)

/-- One month of the amortization loop (src/new/test.py:694-698): interest on the
running balance, principal is payment minus interest, balance drops by the principal. -/
def amortStep (monthly_rate monthly_payment balance : ℚ) : ℚ :=
  let interest_payment := balance * monthly_rate
  let principal_payment := monthly_payment - interest_payment
  balance - principal_payment

/-- Remaining balance after k months of the amortization loop. -/
def amortBal (monthly_rate monthly_payment loan_amount : ℚ) : ℕ → ℚ
  | 0 => loan_amount
  | k + 1 => amortStep monthly_rate monthly_payment (amortBal monthly_rate monthly_payment loan_amount k)

/-- Output of calculate_mortgage_metrics (src/new/test.py:653-731).  When
monthly_rate ≤ 0 or total_periods = 0 the source stores monthly_payment = 0 and
annual_debt_service = 0 and then hits a NameError on the unassigned local
monthly_payment inside the year loop; the enclosing except returns the dict without
any balance, principal, lcf or accumulated fields, modelled by the none case. -/
structure MortgageOut where
  loan_amount : ℚ
  monthly_payment : ℚ
  annual_debt_service : ℚ
  principal_paid : Option (ℕ → ℚ)
  loan_balance : Option (ℕ → ℚ)
  lcf : Option (ℕ → ℚ)
  total_principal_paid : Option ℚ
  final_loan_balance : Option ℚ
  accumulated_cash_flow : Option ℚ

/-- calculate_mortgage_metrics (src/new/test.py:653-731).  The year loop always runs
years 1..5 (60 months); yearly principal paid is the telescoped sum of the 12 monthly
principal payments, i.e. the balance drop across the year. -/
def calculate_mortgage_metrics (list_price : ℚ) (ex : ExtractedMetrics) : MortgageOut :=
  let transaction_cost := ex.transaction_cost
  let down_payment_pct := ex.down_payment_pct
  let total_cost := list_price + transaction_cost
  let loan_amount := total_cost * (1 - down_payment_pct)
  let monthly_rate := ex.interest_rate / 100 / 12
  let total_periods := ex.loan_term * 12
  if 0 < monthly_rate ∧ 0 < total_periods then
    let monthly_payment := npfPmt monthly_rate total_periods (-loan_amount)
    let bal : ℕ → ℚ := fun y => amortBal monthly_rate monthly_payment loan_amount (12 * y)
    let pp : ℕ → ℚ := fun y => bal (y - 1) - bal y
    let lcf : ℕ → ℚ := fun y => ex.ucf_year y - monthly_payment * 12
    { loan_amount, monthly_payment, annual_debt_service := monthly_payment * 12,
      principal_paid := some pp, loan_balance := some bal, lcf := some lcf,
      total_principal_paid := some (pp 1 + pp 2 + pp 3 + pp 4 + pp 5),
      final_loan_balance := some (bal 5),
      accumulated_cash_flow := some (lcf 1 + lcf 2 + lcf 3 + lcf 4 + lcf 5) }
  else
    { loan_amount, monthly_payment := 0, annual_debt_service := 0,
      principal_paid := none, loan_balance := none, lcf := none,
      total_principal_paid := none, final_loan_balance := none,
      accumulated_cash_flow := none }

/-- The metric values calculate_investment_returns reads out of the metrics dict with
.get(key, 0) (src/new/test.py:740-766). -/
structure InvestIn where
  cap_rate : ℚ
  noi_year5 : ℚ
  final_loan_balance : ℚ
  accumulated_cash_flow : ℚ
  cash_equity : ℚ

/-- The fields calculate_investment_returns adds to the metrics dict. -/
structure InvestOut where
  exit_cap_rate : ℚ
  exit_value : ℚ
  equity_at_exit : ℚ
  cash_on_cash : ℚ
  irr : ℚ
deriving DecidableEq

/-- calculate_investment_returns (src/new/test.py:733-785).  zori_growth_rate = none
models an empty cell: float() raises before any field is stored, the except clause
returns the dict unchanged, so none of these fields is reported for that row.  The
fifth root applied to the cash-on-cash multiple is the explicit argument root5, only
ever applied behind the 0 < cash_on_cash guard. -/
def calculate_investment_returns (root5 : ℚ → ℚ) (zori_growth_rate : Option ℚ)
    (zip_code : ℤ) (m : InvestIn) : Option InvestOut :=
  match zori_growth_rate with
  | none => none
  | some gpct =>
    let cap_rate := m.cap_rate / 100
    let growth_rate := gpct / 100
    let neighborhood_factor := get_neighborhood_factor zip_code
    let exit_cap_rate := calculate_exit_cap_rate cap_rate growth_rate neighborhood_factor
    let exit_value := if 0 < exit_cap_rate then m.noi_year5 / exit_cap_rate else 0
    let equity_at_exit := exit_value - m.final_loan_balance + m.accumulated_cash_flow
    if 0 < m.cash_equity then
      let cash_on_cash := equity_at_exit / m.cash_equity
      if 0 < cash_on_cash then
        some { exit_cap_rate := exit_cap_rate * 100, exit_value, equity_at_exit,
               cash_on_cash, irr := (root5 cash_on_cash - 1) * 100 }
      else
        some { exit_cap_rate := exit_cap_rate * 100, exit_value, equity_at_exit,
               cash_on_cash, irr := 0 }
    else
      some { exit_cap_rate := exit_cap_rate * 100, exit_value, equity_at_exit,
             cash_on_cash := 0, irr := 0 }

/-- One output row of process_final_metrics (src/new/test.py:902-976): cap_rate and
cash_yield always reappear from the extracted metrics; the investment-return fields are
absent (blank cells) when calculate_investment_returns hit its except clause. -/
structure FinalRowOut where
  cap_rate : ℚ
  cash_yield : ℚ
  mort : MortgageOut
  invest : Option InvestOut

/-- The per-row body of process_final_metrics: rebuild the metrics from the cash-flow
stage output, run the mortgage stage, then the investment-returns stage, reading
final_loan_balance and accumulated_cash_flow with .get(key, 0). -/
def process_final_row (root5 : ℚ → ℚ) (row : PropertyRow) (cf : Option CashFlowOut) :
    FinalRowOut :=
  let ex := extract_metrics cf
  let mort := calculate_mortgage_metrics row.list_price ex
  let invest := calculate_investment_returns root5 row.zori_growth_rate row.zip_code
    { cap_rate := ex.cap_rate, noi_year5 := ex.noi_year 5,
      final_loan_balance := mort.final_loan_balance.getD 0,
      accumulated_cash_flow := mort.accumulated_cash_flow.getD 0,
      cash_equity := ex.cash_equity }
  { cap_rate := ex.cap_rate, cash_yield := ex.cash_yield, mort, invest }

/-- Python truthiness of an optional float cell: present and nonzero. -/
def pyTruthy (o : Option ℚ) : Bool :=
  match o with
  | some x => decide (x ≠ 0)
  | none => false

/-- One-year growth inside load_zori_data (src/new/test.py:108-109): computed only
when both the latest and the 12-months-prior observations are truthy. -/
def one_year_growth_raw (latest prev : Option ℚ) : Option ℚ :=
  if pyTruthy latest && pyTruthy prev then
    some ((latest.getD 0 / prev.getD 0 - 1) * 100)
  else none

/-- The value stored for one_year (src/new/test.py:137): the growth if truthy, else 0. -/
def reported_one_year_growth (latest prev : Option ℚ) : ℚ :=
  match one_year_growth_raw latest prev with
  | some g => if g = 0 then 0 else g
  | none => 0

/-- Five-year CAGR inside load_zori_data (src/new/test.py:112-113, 138).  math.pow of
a negative base with exponent 1/5 raises ValueError, caught by the per-row except as a
row skip, modelled by the error case; powFifth stands for math.pow(x, 1/5) on the
nonnegative reals where the source actually evaluates it. -/
def reported_five_year_cagr (powFifth : ℚ → ℚ) (latest prev : Option ℚ) : Except Unit ℚ :=
  if pyTruthy latest && pyTruthy prev then
    let r := latest.getD 0 / prev.getD 0
    if r < 0 then Except.error ()
    else
      let cagr := (powFifth r - 1) * 100
      Except.ok (if cagr = 0 then 0 else cagr)
  else Except.ok 0

/-- A neutral listing row used as the base for the concrete test rows below. -/
def baseRow : PropertyRow :=
  { list_price := 0, zip_code := 0, state := "NY", beds := 0, full_baths := 0,
    half_baths := 0, sqft := 0, year_built := 0, style := "", text := "",
    parking_garage := none, hoa_fee := none, tax := 0, price_per_sqft := 0, PTR := 0,
    zori_monthly_rent := none, zori_annual_rent := none, zori_growth_rate := none }

/-- Concrete row for the C1 witness: positive price, successful rent estimate. -/
def rowCap : PropertyRow :=
  { baseRow with
    list_price := 100000, zip_code := 10001, beds := 2, full_baths := 1,
    sqft := 900, zori_monthly_rent := some 1000, zori_annual_rent := some 12000,
    zori_growth_rate := some 3 }

/-- The cash-flow metrics the engine produces for rowCap. -/
def cfOutCap : CashFlowOut := cash_flow_core rowCap 1000 12000 (3/100)

/-- Concrete extracted metrics for the C2 witness: monthly rate 1 (interest 1200 percent),
one-year term, so the annuity payment and balances stay small integers. -/
def exLoan : ExtractedMetrics :=
  { monthly_rent := 0, annual_rent := 0, tax_used := 0, hoa_fee_used := 0,
    down_payment_pct := 0, interest_rate := 1200, loan_term := 1, transaction_cost := 0,
    cash_equity := 0, cap_rate := 0, ucf := 0, cash_yield := 0,
    noi_year := fun _ => 0, ucf_year := fun _ => 0 }

/-- Concrete investment-stage inputs for the C4 witness: an 8 percent cap rate. -/
def mExit : InvestIn :=
  { cap_rate := 8, noi_year5 := 50000, final_loan_balance := 0,
    accumulated_cash_flow := 0, cash_equity := 0 }

/-- Concrete investment-stage inputs for the C10 witness: zero cash equity. -/
def mIrr : InvestIn :=
  { cap_rate := 8, noi_year5 := 0, final_loan_balance := 0,
    accumulated_cash_flow := 0, cash_equity := 0 }

/-- The investment-return fields the engine produces for mIrr (neighborhood default
3/4, growth 3 percent: exit cap 9 percent, everything else zero). -/
def invOutIrr : InvestOut :=
  { exit_cap_rate := 9, exit_value := 0, equity_at_exit := 0, cash_on_cash := 0, irr := 0 }

/-- Concrete multi-family row for the C5 witness: six bedrooms. -/
def rowMF : PropertyRow :=
  { baseRow with
    list_price := 500000, zip_code := 10001, beds := 6, full_baths := 2,
    sqft := 2400, year_built := 1990, style := "Multi Family" }

/-- Concrete row for the C6 amended theorem witness: zero list price but a successful
rent estimate (possible, the rent estimator never reads the price except for the
gross rent multiplier). -/
def rowZeroPrice : PropertyRow :=
  { baseRow with
    list_price := 0, zip_code := 10001, beds := 2,
    zori_monthly_rent := some 1500, zori_annual_rent := some 18000,
    zori_growth_rate := some 3 }

/-- Concrete row for the C6 counterexample: zero list price and a failed rent estimate
(all zori cells empty, as stage one writes for an unresolvable location). -/
def rowZeroPriceNoZori : PropertyRow := { baseRow with list_price := 0 }

/-- Concrete row for C7: HOA fee 2000, in the over-1000 band, nothing else amenity
related. -/
def rowHoa2000 : PropertyRow := { baseRow with hoa_fee := some 2000 }

theorem exit_cap_rate_bounds (e g n : ℚ) :
    1/25 ≤ calculate_exit_cap_rate e g n ∧ calculate_exit_cap_rate e g n ≤ 1/10 := by
  unfold calculate_exit_cap_rate
  exact ⟨le_min (by norm_num) (le_max_left _ _), min_le_left _ _⟩

/-- C3: the growth rate in percent equals
min(10, max(2, clamp(five_year_cagr, 2, 6) + neighborhood_factor * 2 +
(growth modifier - 1) * 1)) and always lies in the interval from 2 to 10 percent,
whatever the stored CAGR (including extreme values such as 50). -/
theorem growth_rate_formula_and_bounds (zip_code : ℤ) (neighborhood_factor : ℚ)
    (property_style : String) (growth_rates_by_zip : ℤ → Option ℚ) :
    calculate_growth_rate zip_code neighborhood_factor property_style growth_rates_by_zip * 100 =
      min 10 (max 2 (min 6 (max 2 ((growth_rates_by_zip zip_code).getD 3)) +
        neighborhood_factor * 2 + (growth_modifier property_style - 1) * 1)) ∧
    2 ≤ calculate_growth_rate zip_code neighborhood_factor property_style growth_rates_by_zip * 100 ∧
    calculate_growth_rate zip_code neighborhood_factor property_style growth_rates_by_zip * 100 ≤ 10 := by
  have hA : calculate_growth_rate zip_code neighborhood_factor property_style growth_rates_by_zip * 100 =
      min 10 (max 2 (min 6 (max 2 ((growth_rates_by_zip zip_code).getD 3)) +
        neighborhood_factor * 2 + (growth_modifier property_style - 1) * 1)) := by
    simp only [calculate_growth_rate]
    have h : min 6 (max 2 ((growth_rates_by_zip zip_code).getD 3)) +
        neighborhood_factor * (2/100) * 100 + (growth_modifier property_style - 1) * (1/100) * 100 =
        min 6 (max 2 ((growth_rates_by_zip zip_code).getD 3)) +
        neighborhood_factor * 2 + (growth_modifier property_style - 1) * 1 := by ring
    rw [h, div_mul_cancel₀ _ (by norm_num : (100:ℚ) ≠ 0)]
  refine ⟨hA, ?_, ?_⟩ <;> rw [hA]
  · exact le_min (by norm_num) (le_max_left _ _)
  · exact min_le_left _ _

/-- C7: evaluating the code at the failing input hoa_fee = 2000 (empty description, no
parking).  The claim and the specification give the over-1000 band an extra 0.10, but
the source tests hoa_fee > 500 first and hoa_fee > 1000 only in an elif, so the 0.10
branch is unreachable and the score is 1.05, not 1.10. -/
theorem amenity_hoa_dead_branch : calculate_amenity_score rowHoa2000 = 21/20 := by
  have hk : keyword_count (lowerString "") = 0 := by decide
  simp only [calculate_amenity_score, rowHoa2000, baseRow]
  norm_num [hk, min_def]

/-- C9: the amenity score always lies in the interval from 1.0 to 1.30: the keyword
boost is capped at 0.20, parking adds at most 0.05, and the HOA check adds at most
0.05 for every fee value because the over-1000 branch sits behind an elif whose guard
is subsumed by the over-500 test. -/
theorem amenity_score_bounds (row : PropertyRow) :
    1 ≤ calculate_amenity_score row ∧ calculate_amenity_score row ≤ 13/10 := by
  have h0 : (0:ℚ) ≤ min (2/10) ((1/100) * (keyword_count (lowerString row.text) : ℚ)) :=
    le_min (by norm_num) (by positivity)
  have h1 : min (2/10) ((1/100) * (keyword_count (lowerString row.text) : ℚ)) ≤ 2/10 :=
    min_le_left _ _
  unfold calculate_amenity_score
  rcases hpark : row.parking_garage with _ | p <;> simp only [hpark] <;>
    split_ifs <;> constructor <;> linarith

/-- C8 counterexample: a negative (hence non-positive) observation 12 months prior is
not reported as 0; the one-year growth is computed from it.  With latest = 1000 and
the prior value -5 the stored one_year growth is -20100. -/
theorem one_year_growth_negative_not_zero :
    reported_one_year_growth (some 1000) (some (-5)) = -20100 ∧
    reported_one_year_growth (some 1000) (some (-5)) ≠ 0 := by
  constructor <;>
    norm_num [reported_one_year_growth, one_year_growth_raw, pyTruthy, Option.getD]

/-- C8 amended: the derived one-year growth and five-year CAGR are reported as 0
whenever the required historical observation is missing or zero (Python falsy); and on
that path the CAGR power is never evaluated, so no error is raised for such rows. -/
theorem growth_reported_zero_when_missing_or_zero (powFifth : ℚ → ℚ)
    (latest prev : Option ℚ) (h : prev.getD 0 = 0) :
    reported_one_year_growth latest prev = 0 ∧
    reported_five_year_cagr powFifth latest prev = Except.ok 0 := by
  have hp : pyTruthy prev = false := by
    rcases prev with _ | x
    · rfl
    · simp only [Option.getD] at h
      simp [pyTruthy, h]
  unfold reported_one_year_growth one_year_growth_raw reported_five_year_cagr
  rw [hp]
  simp

theorem growth_reported_zero_witness :
    reported_one_year_growth (some 1000) (some 0) = 0 ∧
    reported_five_year_cagr id (some 1000) (some 0) = Except.ok 0 :=
  growth_reported_zero_when_missing_or_zero id (some 1000) (some 0) rfl

/-- C4 counterexample: an entry cap rate passed as the decimal 2 (a 200 percent cap
rate, reachable whenever first-year NOI is twice the list price) is re-divided by 100
by the if entry_cap_rate > 1 normalization, so the code reports 0.04 where the claimed
formula min(0.10, max(0.04, entry + expansion)) gives 0.10. -/
theorem exit_cap_rate_percent_reinterpreted :
    calculate_exit_cap_rate 2 (3/100) (3/4) = 1/25 ∧
    claimedExitCapRate 2 (3/100) (3/4) = 1/10 := by
  constructor <;>
    norm_num [calculate_exit_cap_rate, claimedExitCapRate, min_def, max_def]

/-- C4 amended: for every property whose computed cap rate is at most 100 percent the
reported exit cap rate equals the claimed formula min(0.10, max(0.04, entry decimal +
max(0, 0.01 - (neighborhood_factor - 0.75) * 0.015 - (growth_rate - 0.03) * 0.5))); it
always lies between 4 and 10 percent, and the exit value is NOI year 5 divided by the
decimal exit cap rate, whose clamp keeps the denominator nonzero.  (For cap rates above
100 percent the source re-divides the decimal entry by 100, see the counterexample.) -/
theorem exit_value_and_exit_cap_rate (root5 : ℚ → ℚ) (gpct : ℚ) (zip_code : ℤ)
    (m : InvestIn) (hc : m.cap_rate ≤ 100) :
    ∃ out, calculate_investment_returns root5 (some gpct) zip_code m = some out ∧
      out.exit_cap_rate =
        claimedExitCapRate (m.cap_rate / 100) (gpct / 100) (get_neighborhood_factor zip_code) * 100 ∧
      4 ≤ out.exit_cap_rate ∧ out.exit_cap_rate ≤ 10 ∧
      out.exit_value = m.noi_year5 / (out.exit_cap_rate / 100) := by
  have hb := exit_cap_rate_bounds (m.cap_rate / 100) (gpct / 100) (get_neighborhood_factor zip_code)
  have hpos : 0 < calculate_exit_cap_rate (m.cap_rate / 100) (gpct / 100)
      (get_neighborhood_factor zip_code) := by linarith [hb.1]
  have heq : calculate_exit_cap_rate (m.cap_rate / 100) (gpct / 100)
      (get_neighborhood_factor zip_code) =
      claimedExitCapRate (m.cap_rate / 100) (gpct / 100) (get_neighborhood_factor zip_code) := by
    have hle : ¬ (1 < m.cap_rate / 100) := by
      rw [not_lt, div_le_one (by norm_num : (0:ℚ) < 100)]
      exact hc
    simp only [calculate_exit_cap_rate, claimedExitCapRate, if_neg hle]
  have hcancel : ∀ x : ℚ, x * 100 / 100 = x := fun x => by ring
  simp only [calculate_investment_returns]
  rw [if_pos hpos]
  split_ifs with h1 h2
  · exact ⟨_, rfl, by dsimp only; rw [heq], by dsimp only; linarith [hb.1],
      by dsimp only; linarith [hb.2], by dsimp only; rw [hcancel]⟩
  · exact ⟨_, rfl, by dsimp only; rw [heq], by dsimp only; linarith [hb.1],
      by dsimp only; linarith [hb.2], by dsimp only; rw [hcancel]⟩
  · exact ⟨_, rfl, by dsimp only; rw [heq], by dsimp only; linarith [hb.1],
      by dsimp only; linarith [hb.2], by dsimp only; rw [hcancel]⟩

theorem exit_value_and_exit_cap_rate_witness :
    ∃ out, calculate_investment_returns id (some 3) 10001 mExit = some out ∧
      out.exit_cap_rate =
        claimedExitCapRate (mExit.cap_rate / 100) ((3:ℚ) / 100) (get_neighborhood_factor 10001) * 100 ∧
      4 ≤ out.exit_cap_rate ∧ out.exit_cap_rate ≤ 10 ∧
      out.exit_value = mExit.noi_year5 / (out.exit_cap_rate / 100) :=
  exit_value_and_exit_cap_rate id 3 10001 mExit (by norm_num [mExit])

/-- C10: whenever cash_equity is nonpositive or the computed cash-on-cash multiple is
nonpositive, the reported irr is 0; and the output is independent of the values of the
fifth-root function at non-positive arguments, so the fractional power is never applied
to a non-positive base. -/
theorem irr_zero_guard (root5 : ℚ → ℚ) (zgr : Option ℚ) (zip_code : ℤ) (m : InvestIn)
    (out : InvestOut) (hout : calculate_investment_returns root5 zgr zip_code m = some out)
    (h : m.cash_equity ≤ 0 ∨ out.cash_on_cash ≤ 0) :
    out.irr = 0 ∧
    ∀ root5f : ℚ → ℚ, (∀ x : ℚ, 0 < x → root5 x = root5f x) →
      calculate_investment_returns root5 zgr zip_code m =
        calculate_investment_returns root5f zgr zip_code m := by
  have hind : ∀ root5f : ℚ → ℚ, (∀ x : ℚ, 0 < x → root5 x = root5f x) →
      calculate_investment_returns root5 zgr zip_code m =
        calculate_investment_returns root5f zgr zip_code m := by
    intro root5f hagree
    rcases zgr with _ | gpct
    · rfl
    · simp only [calculate_investment_returns]
      split_ifs <;> try rfl
      all_goals (rename_i hcoc; rw [hagree _ hcoc])
  refine ⟨?_, hind⟩
  rcases zgr with _ | gpct
  · exact Option.noConfusion hout
  · simp only [calculate_investment_returns] at hout
    split_ifs at hout
    all_goals obtain rfl := Option.some.inj hout
    all_goals try rfl
    all_goals exfalso
    all_goals rcases h with hce2 | hcoc2
    all_goals try (dsimp only at hcoc2)
    all_goals linarith

theorem irr_zero_guard_witness : invOutIrr.irr = 0 :=
  (irr_zero_guard id (some 3) 0 mIrr invOutIrr
    (by norm_num [calculate_investment_returns, calculate_exit_cap_rate,
      get_neighborhood_factor, mIrr, invOutIrr, min_def, max_def, InvestOut.mk.injEq])
    (Or.inl (by norm_num [mIrr]))).1

/-- C5: a property of style Multi Family with at least four bedrooms bypasses the
weighted-factor blend; its estimated monthly rent is the base index rent times
max(2, beds // 2) times 0.85. -/
theorem multi_family_rent (row : PropertyRow) (base_zori_rent seasonality_pct current_year : ℚ)
    (hstyle : row.style = "Multi Family") (hbeds : 4 ≤ row.beds) :
    estimate_adjusted_rent row base_zori_rent seasonality_pct current_year =
      base_zori_rent * max 2 ((Int.floor (row.beds / 2) : ℤ) : ℚ) * (85/100) := by
  have hstrip : stripString row.style = "Multi Family" := by rw [hstyle]; rfl
  simp only [estimate_adjusted_rent, hstrip]
  rw [if_neg (show ¬ ("Multi Family" = "") by decide)]
  rw [if_pos ⟨rfl, hbeds⟩]

theorem multi_family_rent_witness :
    estimate_adjusted_rent rowMF 1000 0 2025 = 2550 := by
  have h := multi_family_rent rowMF 1000 0 2025 rfl (by norm_num [rowMF, baseRow])
  rw [h]
  norm_num [rowMF, baseRow, max_def]

/-- C1: for a row with positive list price whose rent estimate succeeded, the reported
two-decimal-rounded cap rate equals round(NOI_year1 / list_price * 100, 2) where
NOI_year1 = annual_rent - 12 * hoa_fee_used (all values as computed by the engine
before the output rounding). -/
theorem cap_rate_reported (row : PropertyRow) (out : CashFlowOut)
    (hlp : 0 < row.list_price) (hout : calculate_cash_flow_metrics row = some out) :
    pyRound2 out.cap_rate =
      pyRound2 ((out.annual_rent - 12 * out.hoa_fee_used) / row.list_price * 100) := by
  have hnle : ¬ row.list_price ≤ 0 := not_le.mpr hlp
  simp only [calculate_cash_flow_metrics, if_neg hnle] at hout
  rcases hm : row.zori_monthly_rent with _ | zmr <;> simp only [hm] at hout
  · by_cases hptr : row.PTR ≤ 0
    · rw [if_pos hptr] at hout
      exact Option.noConfusion hout
    · rw [if_neg hptr] at hout
      obtain rfl := Option.some.inj hout
      simp only [cash_flow_core, rent_path]
      rw [if_pos hlp]
      congr 1
      ring
  · rcases ha : row.zori_annual_rent with _ | zar <;>
      rcases hg : row.zori_growth_rate with _ | zgr <;>
        simp only [ha, hg] at hout <;>
        first
          | exact Option.noConfusion hout
          | (obtain rfl := Option.some.inj hout
             simp only [cash_flow_core, rent_path]
             rw [if_pos hlp]
             congr 1
             ring)

theorem cap_rate_reported_witness :
    pyRound2 cfOutCap.cap_rate =
      pyRound2 ((cfOutCap.annual_rent - 12 * cfOutCap.hoa_fee_used) / rowCap.list_price * 100) := by
  have hout : calculate_cash_flow_metrics rowCap = some cfOutCap := by
    simp only [calculate_cash_flow_metrics, cfOutCap]
    rw [if_neg (show ¬ rowCap.list_price ≤ 0 by norm_num [rowCap, baseRow])]
    rfl
  exact cap_rate_reported rowCap cfOutCap (by norm_num [rowCap, baseRow]) hout

theorem amortStep_eq (r mp b : ℚ) : amortStep r mp b = b * (1 + r) - mp := by
  unfold amortStep
  ring

theorem amortBal_succ_eq (r mp L : ℚ) (k : ℕ) :
    amortBal r mp L (k + 1) = amortBal r mp L k * (1 + r) - mp := by
  simp only [amortBal, amortStep_eq]

theorem amortBal_lt_div (r mp L : ℚ) (hr : 0 < r) (hL : L < mp / r) :
    ∀ k, amortBal r mp L k < mp / r := by
  intro k
  induction k with
  | zero => exact hL
  | succ n ih =>
      rw [amortBal_succ_eq]
      have h1 : amortBal r mp L n * (1 + r) < mp / r * (1 + r) :=
        mul_lt_mul_of_pos_right ih (by linarith)
      have h2 : mp / r * (1 + r) = mp / r + mp := by
        field_simp
        ring
      linarith

theorem amortBal_succ_lt (r mp L : ℚ) (hr : 0 < r) (hL : L < mp / r) (k : ℕ) :
    amortBal r mp L (k + 1) < amortBal r mp L k := by
  have hb := amortBal_lt_div r mp L hr hL k
  have h1 : amortBal r mp L k * r < mp := (lt_div_iff₀ hr).mp hb
  rw [amortBal_succ_eq]
  have h2 : amortBal r mp L k * (1 + r) = amortBal r mp L k + amortBal r mp L k * r := by
    ring
  linarith

theorem amortBal_strictAnti (r mp L : ℚ) (hr : 0 < r) (hL : L < mp / r) :
    StrictAnti (amortBal r mp L) :=
  strictAnti_nat_of_succ_lt (amortBal_succ_lt r mp L hr hL)

theorem loan_lt_pmt_div (r : ℚ) (n : ℕ) (L : ℚ) (hr : 0 < r) (hn : n ≠ 0) (hL : 0 < L) :
    L < npfPmt r n (-L) / r := by
  have hA : 1 < (1 + r) ^ n := one_lt_pow₀ (by linarith) hn
  have hA0 : (0:ℚ) < (1 + r) ^ n - 1 := by linarith
  have hdiv : npfPmt r n (-L) / r = L * (1 + r) ^ n / ((1 + r) ^ n - 1) := by
    unfold npfPmt
    field_simp
    ring
  rw [hdiv, lt_div_iff₀ hA0]
  nlinarith

/-- C2: whenever the extracted interest rate and loan term are positive and the loan
amount (total cost net of down payment) is positive, the amortization of
calculate_mortgage_metrics produces a strictly decreasing year-end balance sequence
over years 1 to 5, and the year-5 balance lies strictly below the loan amount. -/
theorem loan_balance_strictly_decreasing (list_price : ℚ) (ex : ExtractedMetrics)
    (hr : 0 < ex.interest_rate) (ht : 0 < ex.loan_term)
    (hL : 0 < (list_price + ex.transaction_cost) * (1 - ex.down_payment_pct)) :
    ∃ bal, (calculate_mortgage_metrics list_price ex).loan_balance = some bal ∧
      bal 2 < bal 1 ∧ bal 3 < bal 2 ∧ bal 4 < bal 3 ∧ bal 5 < bal 4 ∧
      bal 5 < (calculate_mortgage_metrics list_price ex).loan_amount := by
  have hmr : 0 < ex.interest_rate / 100 / 12 := by positivity
  have hn : 0 < ex.loan_term * 12 := Nat.mul_pos ht (by norm_num)
  have hmp : (list_price + ex.transaction_cost) * (1 - ex.down_payment_pct) <
      npfPmt (ex.interest_rate / 100 / 12) (ex.loan_term * 12)
        (-((list_price + ex.transaction_cost) * (1 - ex.down_payment_pct))) /
        (ex.interest_rate / 100 / 12) :=
    loan_lt_pmt_div _ _ _ hmr (Nat.pos_iff_ne_zero.mp hn) hL
  have hanti := amortBal_strictAnti _ _ _ hmr hmp
  simp only [calculate_mortgage_metrics]
  rw [if_pos ⟨hmr, hn⟩]
  refine ⟨_, rfl, ?_, ?_, ?_, ?_, ?_⟩
  · simpa using hanti (show (12:ℕ) * 1 < 12 * 2 by norm_num)
  · simpa using hanti (show (12:ℕ) * 2 < 12 * 3 by norm_num)
  · simpa using hanti (show (12:ℕ) * 3 < 12 * 4 by norm_num)
  · simpa using hanti (show (12:ℕ) * 4 < 12 * 5 by norm_num)
  · have h5 := hanti (show (0:ℕ) < 12 * 5 by norm_num)
    have h0 : amortBal (ex.interest_rate / 100 / 12)
        (npfPmt (ex.interest_rate / 100 / 12) (ex.loan_term * 12)
          (-((list_price + ex.transaction_cost) * (1 - ex.down_payment_pct))))
        ((list_price + ex.transaction_cost) * (1 - ex.down_payment_pct)) 0 =
        (list_price + ex.transaction_cost) * (1 - ex.down_payment_pct) := rfl
    rw [h0] at h5
    simpa using h5

theorem loan_balance_strictly_decreasing_witness :
    ∃ bal, (calculate_mortgage_metrics 4095 exLoan).loan_balance = some bal ∧
      bal 2 < bal 1 ∧ bal 3 < bal 2 ∧ bal 4 < bal 3 ∧ bal 5 < bal 4 ∧
      bal 5 < (calculate_mortgage_metrics 4095 exLoan).loan_amount :=
  loan_balance_strictly_decreasing 4095 exLoan (by norm_num [exLoan])
    (by norm_num [exLoan]) (by norm_num [exLoan])

/-- C6 amended: a row with zero list price reports cap_rate = 0 and cash_yield = 0, and
whenever its zori growth cell parses as a number (in particular whenever the rent
estimate succeeded) it also reports cash_on_cash = 0 and irr = 0; the whole per-row
computation is a total function, so no exception escapes.  When the rent estimate
failed (empty growth cell) the investment fields are left blank instead of 0, see the
counterexample. -/
theorem zero_list_price_reports_zero (root5 : ℚ → ℚ) (row : PropertyRow) (g : ℚ)
    (hlp : row.list_price = 0) (hg : row.zori_growth_rate = some g) :
    (process_final_row root5 row (calculate_cash_flow_metrics row)).cap_rate = 0 ∧
    (process_final_row root5 row (calculate_cash_flow_metrics row)).cash_yield = 0 ∧
    ∃ i, (process_final_row root5 row (calculate_cash_flow_metrics row)).invest = some i ∧
      i.cash_on_cash = 0 ∧ i.irr = 0 := by
  have hcf : calculate_cash_flow_metrics row = none := by
    simp only [calculate_cash_flow_metrics, hlp]
    norm_num
  refine ⟨?_, ?_, ?_⟩
  · rw [hcf]
    rfl
  · rw [hcf]
    rfl
  · rw [hcf]
    simp only [process_final_row, extract_metrics, hg, calculate_investment_returns]
    rw [if_neg (lt_irrefl (0:ℚ))]
    exact ⟨_, rfl, rfl, rfl⟩

theorem zero_list_price_reports_zero_witness :
    (process_final_row id rowZeroPrice (calculate_cash_flow_metrics rowZeroPrice)).cap_rate = 0 ∧
    (process_final_row id rowZeroPrice (calculate_cash_flow_metrics rowZeroPrice)).cash_yield = 0 ∧
    ∃ i, (process_final_row id rowZeroPrice (calculate_cash_flow_metrics rowZeroPrice)).invest = some i ∧
      i.cash_on_cash = 0 ∧ i.irr = 0 :=
  zero_list_price_reports_zero id rowZeroPrice 3 rfl rfl

/-- C6 counterexample: a zero list price row whose rent estimate also failed (all zori
cells empty) does not report cash_on_cash or irr at all, let alone as 0: float() raises
on the empty growth cell inside calculate_investment_returns, the except clause returns
the metrics dict unchanged, and the investment-return fields stay blank in the output
row. -/
theorem zero_price_blank_investment_fields :
    (process_final_row id rowZeroPriceNoZori
      (calculate_cash_flow_metrics rowZeroPriceNoZori)).invest = none := rfl
